import Mathlib

/-!
Verification development for the Azira auction-bidding service
(src/app.py): the bid-decision engine (DecisionEngine.evaluate_auction),
the event ledger (DataWarehouseService.store_auction_event and the
bid_accepted lookup), and the two endpoints that compose them
(the evaluate route and the auction_result route).

Modelling choices for the shallow embedding:
* Prices and budgets are rationals; the Python builtin round(x, 2) is
  modelled by round2, rounding half away from zero at two decimals (for
  every value appearing in the statements below no tie between half-up and
  half-to-even rounding occurs, so the distinction is immaterial here).
* The SQL pattern test ILIKE with a pattern of the form percent-s-percent
  on a column is a case-insensitive substring test: the pattern string
  occurs inside the column value once both are lower-cased.
* The preference-table read, which in the source may raise a data-access
  exception caught by the surrounding try block, is passed in as an
  Except value: the error branch is the caught exception, so evaluation
  being a total Lean function models the fact that no exception escapes
  the engine.
* The event store is a list of events in insertion order; a commit fault
  in store_auction_event is a boolean input, and the rollback leaves the
  list unchanged.
-/

unseal Rat.mul Rat.inv Rat.add Rat.sub Rat.ofScientific

/-- Incoming auction proposal (dataclass AuctionProposal of app.py). -/
structure AuctionProposal where
  item_id : String
  category : String
  brand : String
  starting_price : ℚ
  max_price : ℚ
  auction_id : String
deriving DecidableEq

/-- Row of the user_preferences table (the columns used by the engine). -/
structure UserPreference where
  id : ℕ
  user_id : ℕ
  category : String
  brand : String
  max_budget : ℚ
  is_active : Bool
deriving DecidableEq

/-- Result value of the decision engine (dataclass BidDecision of app.py). -/
structure BidDecision where
  success : Bool
  user_id : Option ℕ := none
  bid_amount : Option ℚ := none
  reason : Option String := none
deriving DecidableEq

/-- Structured payload serialized into the extra_data column: either the
proposal/decision pair stored by store_auction_event, or the
won/final-price/winner-info bundle stored by the auction_result route. -/
inductive ExtraData where
  | evalData (proposal : AuctionProposal) (decision : BidDecision)
  | outcomeData (won : Bool) (final_price : Option ℚ) (winner_info : Option String)
deriving DecidableEq

/-- Row of the auction_events ledger table. -/
structure AuctionEvent where
  auction_id : String
  item_id : String
  user_id : Option ℕ
  event_type : String
  bid_amount : Option ℚ
  category : String
  brand : String
  starting_price : ℚ
  max_price : ℚ
  decision_reason : Option String
  extra_data : Option ExtraData
deriving DecidableEq

/-- Lower-cased character list of a string (ASCII case folding, as done both
by the SQL ILIKE comparison and by str.lower on the inputs the service
receives). -/
def lowerL (s : String) : List Char := s.toList.map Char.toLower

/-- Case-insensitive substring test: needle occurs inside hay once both are
lower-cased.  This is the column ILIKE percent-needle-percent filter with
hay the column value. -/
def substrCI (needle hay : String) : Bool := decide (lowerL needle <:+: lowerL hay)

/-- Filter condition of the preference query in the engine (app.py lines
112-117): the category of the proposal occurs in the category of the
preference, likewise for the brand, the budget covers the starting price,
and the preference is active. -/
def prefMatches (proposal : AuctionProposal) (p : UserPreference) : Bool :=
  substrCI proposal.category p.category &&
  substrCI proposal.brand p.brand &&
  decide (proposal.starting_price ≤ p.max_budget) &&
  p.is_active

/-- The Python expression max(list, key=lambda p: p.max_budget) of app.py
line 126: folds over the list keeping the current element unless a strictly
larger budget appears, so the first element with the maximal budget wins;
none on the empty list (where the source never calls it). -/
def pickBest : List UserPreference → Option UserPreference
  | [] => none
  | p :: ps => some (ps.foldl (fun best q => if best.max_budget < q.max_budget then q else best) p)

/-- The Python builtin round(q, 2): round at two decimals. -/
def round2 (q : ℚ) : ℚ := ((⌊100 * q + 1/2⌋ : ℤ) : ℚ) / 100

/-- The decision engine DecisionEngine.evaluate_auction (app.py 106-151).
The preference-table read is an Except value: its error branch is the
caught data-access exception of the try block in the source. -/
def evaluate_auction (proposal : AuctionProposal)
    (prefTable : Except String (List UserPreference)) : BidDecision :=
  match prefTable with
  | .error e =>
      { success := false, reason := some ("Erreur technique: " ++ e) }
  | .ok prefs =>
      let matching_preferences := prefs.filter (prefMatches proposal)
      match pickBest matching_preferences with
      | none =>
          { success := false, reason := some "Aucun utilisateur ne correspond aux critères" }
      | some best_preference =>
          let bid_amount := min (proposal.starting_price * (1.05 : ℚ)) best_preference.max_budget
          let capped := if proposal.max_price < bid_amount then proposal.max_price else bid_amount
          { success := true
            user_id := some best_preference.user_id
            bid_amount := some (round2 capped)
            reason := some ("Enchère optimale pour l\x27utilisateur " ++ toString best_preference.user_id) }

/-- The AuctionEvent row built by store_auction_event (app.py 168-183). -/
def mkStoredEvent (auction_id item_id : String) (proposal : AuctionProposal)
    (decision : BidDecision) (event_type : String) : AuctionEvent :=
  { auction_id := auction_id
    item_id := item_id
    user_id := decision.user_id
    event_type := event_type
    bid_amount := decision.bid_amount
    category := proposal.category
    brand := proposal.brand
    starting_price := proposal.starting_price
    max_price := proposal.max_price
    decision_reason := decision.reason
    extra_data := some (.evalData proposal decision) }

/-- DataWarehouseService.store_auction_event (app.py 157-194): appends the
event and returns true; on a persistence fault (persistFault) the rollback
leaves the store unchanged and the result is false. -/
def store_auction_event (events : List AuctionEvent) (auction_id item_id : String)
    (proposal : AuctionProposal) (decision : BidDecision) (event_type : String)
    (persistFault : Bool) : Bool × List AuctionEvent :=
  if persistFault then (false, events)
  else (true, events ++ [mkStoredEvent auction_id item_id proposal decision event_type])

/-- The bid_accepted lookup of the auction_result route (app.py 281-285):
first event in insertion order matching auction id, item id and kind. -/
def findAccepted (events : List AuctionEvent) (auction_id item_id : String) :
    Option AuctionEvent :=
  events.find? (fun e =>
    e.auction_id == auction_id && e.item_id == item_id && e.event_type == "bid_accepted")

/-- The auction_result route (app.py 266-326) after payload validation:
none is the 404 not-found response (nothing is written); otherwise the
outcome event copying the fields of the accepted event is appended. -/
def auction_result (events : List AuctionEvent) (auction_id item_id : String)
    (won : Bool) (final_price : Option ℚ) (winner_info : Option String) :
    Option (List AuctionEvent) :=
  match findAccepted events auction_id item_id with
  | none => none
  | some original_event =>
      let event_type := if won then "bid_won" else "bid_lost"
      some (events ++ [{
        auction_id := auction_id
        item_id := item_id
        user_id := original_event.user_id
        event_type := event_type
        bid_amount := original_event.bid_amount
        category := original_event.category
        brand := original_event.brand
        starting_price := original_event.starting_price
        max_price := original_event.max_price
        decision_reason := some (if won then "Enchère remportée" else "Enchère perdue")
        extra_data := some (.outcomeData won final_price winner_info) }])

/-- The evaluate route (app.py 198-256) after payload validation: it
evaluates, then makes its single store_auction_event call with kind
bid_accepted exactly when the decision succeeded, bid_rejected otherwise.
Returns the decision, the store result flag, and the new store. -/
def evaluate_endpoint (proposal : AuctionProposal)
    (prefTable : Except String (List UserPreference))
    (events : List AuctionEvent) (persistFault : Bool) :
    BidDecision × Bool × List AuctionEvent :=
  let decision := evaluate_auction proposal prefTable
  let event_type := if decision.success then "bid_accepted" else "bid_rejected"
  let stored := store_auction_event events proposal.auction_id proposal.item_id
    proposal decision event_type persistFault
  (decision, stored.1, stored.2)

/-! Concrete fixtures used in witnesses and counterexamples; the first four
mirror the test data of src/test_app.py. -/

/-- Preference of user 1: robe / dior with budget 2500 (test fixture). -/
def aliceRobe : UserPreference :=
  { id := 1, user_id := 1, category := "robe", brand := "dior", max_budget := 2500, is_active := true }

/-- Preference of user 2: pantalon / saint_laurent with budget 800. -/
def bobPantalon : UserPreference :=
  { id := 3, user_id := 2, category := "pantalon", brand := "saint_laurent", max_budget := 800,
    is_active := true }

/-- Proposal robe / dior, starting price 2000, max price 2800. -/
def propRobe : AuctionProposal :=
  { item_id := "item_123", category := "robe", brand := "dior", starting_price := 2000,
    max_price := 2800, auction_id := "auction_123" }

/-- Proposal robe / dior, starting price 2400, max price 2450: the budget
cap example of the spec. -/
def propRobeCap : AuctionProposal :=
  { item_id := "item_123", category := "robe", brand := "dior", starting_price := 2400,
    max_price := 2450, auction_id := "auction_123" }

/-- Upper-case proposal ROBE / DIOR for the case-insensitivity example. -/
def propUpper : AuctionProposal :=
  { item_id := "item_123", category := "ROBE", brand := "DIOR", starting_price := 2000,
    max_price := 2800, auction_id := "auction_123" }

/-- Proposal pantalon / saint_laurent with starting price 750.33 and an
unreachable max price, for the rounding example. -/
def propRounding : AuctionProposal :=
  { item_id := "item_123", category := "pantalon", brand := "saint_laurent",
    starting_price := 750.33, max_price := 800, auction_id := "auction_123" }

/-- Preference whose budget 2450.006 is not a whole number of cents. -/
def prefOddBudget : UserPreference :=
  { id := 9, user_id := 7, category := "robe", brand := "dior", max_budget := 2450.006,
    is_active := true }

/-- Proposal robe / dior, starting price 2400, high max price, used against
prefOddBudget. -/
def propOddBudget : AuctionProposal :=
  { item_id := "item_odd", category := "robe", brand := "dior", starting_price := 2400,
    max_price := 3000, auction_id := "auction_odd" }

/-- Second preference with the same budget as aliceRobe, for the tie-break
example (user 2, same robe / dior tags, budget 2500). -/
def twinRobe : UserPreference :=
  { id := 2, user_id := 2, category := "robe", brand := "dior", max_budget := 2500,
    is_active := true }

/-- A bid_accepted ledger event for the outcome-recording witness. -/
def acceptedEvt : AuctionEvent :=
  { auction_id := "auction_123", item_id := "item_456", user_id := some 1,
    event_type := "bid_accepted", bid_amount := some 2100, category := "robe", brand := "dior",
    starting_price := 2000, max_price := 2800, decision_reason := some "ok", extra_data := none }

/-! Helper lemmas shared by the claim theorems. -/

/-- The cap written as an if in the source equals a binary minimum. -/
theorem if_lt_eq_min (a b : ℚ) : (if b < a then b else a) = min a b := by
  by_cases h : b < a
  · rw [if_pos h, min_eq_right h.le]
  · rw [if_neg h, min_eq_left (le_of_not_lt h)]

/-- Rounding at two decimals overshoots its argument by at most half a cent. -/
theorem round2_le_add_half_cent (q : ℚ) : round2 q ≤ q + 1/200 := by
  unfold round2
  have h : ((⌊100 * q + 1/2⌋ : ℤ) : ℚ) ≤ 100 * q + 1/2 := Int.floor_le _
  calc ((⌊100 * q + 1/2⌋ : ℤ) : ℚ) / 100 ≤ (100 * q + 1/2) / 100 := by
        exact (div_le_div_iff_of_pos_right (by norm_num)).mpr h
  _ = q + 1/200 := by ring

/-- The fold used by pickBest returns its seed or a list element. -/
theorem foldl_pick_mem (acc : UserPreference) (l : List UserPreference) :
    l.foldl (fun best q => if best.max_budget < q.max_budget then q else best) acc = acc ∨
    l.foldl (fun best q => if best.max_budget < q.max_budget then q else best) acc ∈ l := by
  induction l generalizing acc with
  | nil => left; rfl
  | cons x xs ih =>
    simp only [List.foldl_cons]
    rcases ih (if acc.max_budget < x.max_budget then x else acc) with h | h
    · rw [h]
      by_cases hx : acc.max_budget < x.max_budget
      · right; rw [if_pos hx]; exact List.mem_cons_self x xs
      · left; rw [if_neg hx]
    · right; exact List.mem_cons_of_mem x h

/-- The fold used by pickBest dominates its seed and every list element. -/
theorem foldl_pick_ge (acc : UserPreference) (l : List UserPreference) :
    acc.max_budget ≤
      (l.foldl (fun best q => if best.max_budget < q.max_budget then q else best) acc).max_budget ∧
    ∀ q ∈ l, q.max_budget ≤
      (l.foldl (fun best q => if best.max_budget < q.max_budget then q else best) acc).max_budget := by
  induction l generalizing acc with
  | nil => exact ⟨le_refl _, by intro q hq; cases hq⟩
  | cons x xs ih =>
    have h := ih (if acc.max_budget < x.max_budget then x else acc)
    simp only [List.foldl_cons]
    constructor
    · refine le_trans ?_ h.1
      by_cases hx : acc.max_budget < x.max_budget
      · rw [if_pos hx]; exact hx.le
      · rw [if_neg hx]
    · intro q hq
      rcases List.mem_cons.mp hq with rfl | hq
      · refine le_trans ?_ h.1
        by_cases hx : acc.max_budget < q.max_budget
        · rw [if_pos hx]
        · rw [if_neg hx]; exact le_of_not_lt hx
      · exact h.2 q hq

/-- pickBest only returns members of its input list. -/
theorem pickBest_mem {l : List UserPreference} {b : UserPreference}
    (h : pickBest l = some b) : b ∈ l := by
  cases l with
  | nil => cases h
  | cons p ps =>
    simp only [pickBest, Option.some.injEq] at h
    rcases foldl_pick_mem p ps with h2 | h2
    · rw [← h, h2]; exact List.mem_cons_self p ps
    · rw [← h]; exact List.mem_cons_of_mem p h2

/-- pickBest returns an element whose budget dominates the whole list. -/
theorem pickBest_max {l : List UserPreference} {b : UserPreference}
    (h : pickBest l = some b) : ∀ q ∈ l, q.max_budget ≤ b.max_budget := by
  cases l with
  | nil => cases h
  | cons p ps =>
    simp only [pickBest, Option.some.injEq] at h
    intro q hq
    rcases List.mem_cons.mp hq with rfl | hq
    · rw [← h]; exact (foldl_pick_ge q ps).1
    · rw [← h]; exact (foldl_pick_ge p ps).2 q hq

/-- pickBest succeeds on every non-empty list. -/
theorem pickBest_isSome {l : List UserPreference} (h : l ≠ []) :
    ∃ b, pickBest l = some b := by
  cases l with
  | nil => exact absurd rfl h
  | cons p ps => exact ⟨_, rfl⟩

/-- Evaluation with a faulted preference read: the caught exception becomes
an unsuccessful decision carrying the technical-error reason. -/
theorem evaluate_error_eq (proposal : AuctionProposal) (e : String) :
    evaluate_auction proposal (.error e) =
      { success := false, user_id := none, bid_amount := none,
        reason := some ("Erreur technique: " ++ e) } := rfl

/-- Evaluation when no preference survives the filter. -/
theorem evaluate_none_eq (proposal : AuctionProposal) (prefs : List UserPreference)
    (h : pickBest (prefs.filter (prefMatches proposal)) = none) :
    evaluate_auction proposal (.ok prefs) =
      { success := false, user_id := none, bid_amount := none,
        reason := some "Aucun utilisateur ne correspond aux critères" } := by
  simp only [evaluate_auction, h]

/-- Evaluation when a best preference is selected: the closed form of the
successful decision, with the two caps fused into minima and a single final
rounding. -/
theorem evaluate_some_eq (proposal : AuctionProposal) (prefs : List UserPreference)
    (b : UserPreference) (h : pickBest (prefs.filter (prefMatches proposal)) = some b) :
    evaluate_auction proposal (.ok prefs) =
      { success := true, user_id := some b.user_id,
        bid_amount := some (round2
          (min (min (proposal.starting_price * (1.05 : ℚ)) b.max_budget) proposal.max_price)),
        reason := some ("Enchère optimale pour l\x27utilisateur " ++ toString b.user_id) } := by
  simp only [evaluate_auction, h, if_lt_eq_min]

/-! Claim theorems. -/

/-- C1 counterexample: with a selected budget of 2450.006 and max price
3000, the evaluated bid amount is 2450.01, which exceeds the minimum of
budget and max price, so the claimed inequality fails as stated. -/
theorem C1_counterexample :
    (evaluate_auction propOddBudget (.ok [prefOddBudget])).bid_amount = some (2450.01 : ℚ) ∧
    ¬ ((2450.01 : ℚ) ≤ min prefOddBudget.max_budget propOddBudget.max_price) := by
  constructor
  · decide
  · decide

/-- C1 (amended): for every proposal and selected preference, the bid
amount equals round2 of the minimum of starting price times 1.05, the
budget of the preference, and the max price of the proposal, rounded
exactly once at the end; it never exceeds the minimum of budget and max
price by more than half a cent (and hence never exceeds it at all when
budget and max price are whole cents); and for budget 2500, starting price
2400, max price 2450 the amount is 2450. -/
theorem C1_bid_amount_formula (proposal : AuctionProposal) (prefs : List UserPreference)
    (b : UserPreference) (h : pickBest (prefs.filter (prefMatches proposal)) = some b) :
    (evaluate_auction proposal (.ok prefs)).bid_amount =
      some (round2
        (min (min (proposal.starting_price * (1.05 : ℚ)) b.max_budget) proposal.max_price)) ∧
    round2 (min (min (proposal.starting_price * (1.05 : ℚ)) b.max_budget) proposal.max_price) ≤
      min b.max_budget proposal.max_price + 1/200 ∧
    (evaluate_auction propRobeCap (.ok [aliceRobe])).bid_amount = some (2450 : ℚ) := by
  refine ⟨?_, ?_, by decide⟩
  · rw [evaluate_some_eq proposal prefs b h]
  · refine le_trans (round2_le_add_half_cent _) ?_
    have hm : min (min (proposal.starting_price * (1.05 : ℚ)) b.max_budget) proposal.max_price ≤
        min b.max_budget proposal.max_price :=
      min_le_min (min_le_right _ _) (le_refl _)
    linarith

/-- C1 witness: the amended theorem applied to the budget-cap fixture. -/
theorem C1_witness :
    pickBest (([aliceRobe] : List UserPreference).filter (prefMatches propRobeCap)) =
      some aliceRobe ∧
    ((evaluate_auction propRobeCap (.ok [aliceRobe])).bid_amount =
      some (round2 (min (min (propRobeCap.starting_price * (1.05 : ℚ)) aliceRobe.max_budget)
        propRobeCap.max_price)) ∧
    round2 (min (min (propRobeCap.starting_price * (1.05 : ℚ)) aliceRobe.max_budget)
        propRobeCap.max_price) ≤ min aliceRobe.max_budget propRobeCap.max_price + 1/200 ∧
    (evaluate_auction propRobeCap (.ok [aliceRobe])).bid_amount = some (2450 : ℚ)) :=
  ⟨by decide, C1_bid_amount_formula propRobeCap [aliceRobe] aliceRobe (by decide)⟩

/-- C2: a preference is in the matched set iff it is in the table, is
active, its category contains the lower-cased category of the proposal,
its brand contains the lower-cased brand, and its budget covers the
starting price; a selected preference is always active; and the upper-case
proposal ROBE / DIOR matches the lower-case preference robe / dior. -/
theorem C2_matching_characterization :
    (∀ (proposal : AuctionProposal) (prefs : List UserPreference) (p : UserPreference),
      p ∈ prefs.filter (prefMatches proposal) ↔
        p ∈ prefs ∧ lowerL proposal.category <:+: lowerL p.category ∧
          lowerL proposal.brand <:+: lowerL p.brand ∧
          proposal.starting_price ≤ p.max_budget ∧ p.is_active = true) ∧
    (∀ (proposal : AuctionProposal) (prefs : List UserPreference) (b : UserPreference),
      pickBest (prefs.filter (prefMatches proposal)) = some b → b.is_active = true) ∧
    prefMatches propUpper aliceRobe = true := by
  refine ⟨?_, ?_, by decide⟩
  · intro proposal prefs p
    simp [List.mem_filter, prefMatches, substrCI, Bool.and_eq_true, decide_eq_true_eq, and_assoc]
  · intro proposal prefs b h
    have hb := (List.mem_filter.mp (pickBest_mem h)).2
    simp only [prefMatches, Bool.and_eq_true] at hb
    exact hb.2

/-- C2 witness: the selected preference of the upper-case fixture is
active. -/
theorem C2_witness : aliceRobe.is_active = true :=
  C2_matching_characterization.2.1 propUpper [aliceRobe] aliceRobe (by decide)

/-- C3: when the filtered set is non-empty the matcher selects exactly one
preference; it belongs to the filtered set, its budget dominates every
candidate, and the user id of the decision is the user id of that
maximal-budget candidate. -/
theorem C3_unique_max_selection (proposal : AuctionProposal) (prefs : List UserPreference)
    (h : prefs.filter (prefMatches proposal) ≠ []) :
    ∃ b, pickBest (prefs.filter (prefMatches proposal)) = some b ∧
      b ∈ prefs.filter (prefMatches proposal) ∧
      (∀ q ∈ prefs.filter (prefMatches proposal), q.max_budget ≤ b.max_budget) ∧
      (evaluate_auction proposal (.ok prefs)).user_id = some b.user_id := by
  obtain ⟨b, hb⟩ := pickBest_isSome h
  exact ⟨b, hb, pickBest_mem hb, pickBest_max hb,
    by rw [evaluate_some_eq proposal prefs b hb]⟩

/-- C3 witness: two preferences with equal budget 2500; the theorem applied
to that tie. -/
theorem C3_witness :
    ([aliceRobe, twinRobe] : List UserPreference).filter (prefMatches propRobe) ≠ [] ∧
    (∃ b, pickBest (([aliceRobe, twinRobe] : List UserPreference).filter (prefMatches propRobe)) =
        some b ∧
      b ∈ ([aliceRobe, twinRobe] : List UserPreference).filter (prefMatches propRobe) ∧
      (∀ q ∈ ([aliceRobe, twinRobe] : List UserPreference).filter (prefMatches propRobe),
        q.max_budget ≤ b.max_budget) ∧
      (evaluate_auction propRobe (.ok [aliceRobe, twinRobe])).user_id = some b.user_id) :=
  ⟨by decide, C3_unique_max_selection propRobe [aliceRobe, twinRobe] (by decide)⟩

/-- C4: recording an outcome with no prior bid_accepted event for the pair
yields the distinguishable not-found result and writes nothing; with such
an event present, a bid_won or bid_lost event is appended that copies the
user id, bid amount, category, brand, starting and max price of the first
matching accepted event, with the won / final-price / winner-info bundle
as payload. -/
theorem C4_outcome_recording (events : List AuctionEvent) (aid iid : String)
    (won : Bool) (fp : Option ℚ) (wi : Option String) :
    (findAccepted events aid iid = none → auction_result events aid iid won fp wi = none) ∧
    (∀ orig, findAccepted events aid iid = some orig →
      orig.auction_id = aid ∧ orig.item_id = iid ∧ orig.event_type = "bid_accepted" ∧
      auction_result events aid iid won fp wi = some (events ++ [{
        auction_id := aid, item_id := iid, user_id := orig.user_id,
        event_type := if won then "bid_won" else "bid_lost",
        bid_amount := orig.bid_amount, category := orig.category, brand := orig.brand,
        starting_price := orig.starting_price, max_price := orig.max_price,
        decision_reason := some (if won then "Enchère remportée" else "Enchère perdue"),
        extra_data := some (.outcomeData won fp wi) }])) := by
  constructor
  · intro h; simp only [auction_result, h]
  · intro orig h
    have hp := h
    simp only [findAccepted] at hp
    have hq := List.find?_some hp
    simp only [Bool.and_eq_true, beq_iff_eq] at hq
    exact ⟨hq.1.1, hq.1.2, hq.2, by simp only [auction_result, h]⟩

/-- C4 witness: the theorem applied to a store holding one accepted event. -/
theorem C4_witness :
    findAccepted [acceptedEvt] "auction_123" "item_456" = some acceptedEvt ∧
    (acceptedEvt.auction_id = "auction_123" ∧ acceptedEvt.item_id = "item_456" ∧
      acceptedEvt.event_type = "bid_accepted" ∧
      auction_result [acceptedEvt] "auction_123" "item_456" true (some 2200) none =
        some ([acceptedEvt] ++ [{
          auction_id := "auction_123", item_id := "item_456", user_id := acceptedEvt.user_id,
          event_type := if true then "bid_won" else "bid_lost",
          bid_amount := acceptedEvt.bid_amount, category := acceptedEvt.category,
          brand := acceptedEvt.brand, starting_price := acceptedEvt.starting_price,
          max_price := acceptedEvt.max_price,
          decision_reason := some (if true then "Enchère remportée" else "Enchère perdue"),
          extra_data := some (.outcomeData true (some 2200) none) }])) :=
  ⟨by decide,
    (C4_outcome_recording [acceptedEvt] "auction_123" "item_456" true (some 2200) none).2
      acceptedEvt (by decide)⟩

/-- C5 counterexample: the engine converts a preference-read fault into an
unsuccessful decision, but the reason string of the code is the French
string, not the English string of the claim. -/
theorem C5_counterexample :
    (evaluate_auction propRobe (Except.error "boom")).success = false ∧
    (evaluate_auction propRobe (Except.error "boom")).reason =
      some "Erreur technique: boom" ∧
    (evaluate_auction propRobe (Except.error "boom")).reason ≠
      some "technical error: boom" := by
  exact ⟨rfl, rfl, by decide⟩

/-- C5 (amended): evaluation never lets a preference-read failure escape:
it is a total function of the read outcome, and any fault is converted
into the unsuccessful decision with reason the detail prefixed by the
French string Erreur technique. -/
theorem C5_fault_to_decision (proposal : AuctionProposal) (e : String) :
    evaluate_auction proposal (Except.error e) =
      { success := false, user_id := none, bid_amount := none,
        reason := some ("Erreur technique: " ++ e) } :=
  evaluate_error_eq proposal e

/-- C6: every decision produced by evaluation satisfies the coupling
invariant: on success the user id and bid amount are both present, and on
failure both are absent. -/
theorem C6_success_field_coupling (proposal : AuctionProposal)
    (table : Except String (List UserPreference)) :
    ((evaluate_auction proposal table).success = true →
      (evaluate_auction proposal table).user_id.isSome = true ∧
      (evaluate_auction proposal table).bid_amount.isSome = true) ∧
    ((evaluate_auction proposal table).success = false →
      (evaluate_auction proposal table).user_id = none ∧
      (evaluate_auction proposal table).bid_amount = none) := by
  match table with
  | .error e =>
    rw [evaluate_error_eq]
    simp
  | .ok prefs =>
    rcases hp : pickBest (prefs.filter (prefMatches proposal)) with _ | b
    · rw [evaluate_none_eq proposal prefs hp]
      simp
    · rw [evaluate_some_eq proposal prefs b hp]
      simp

/-- C6 witness: the coupling theorem applied to a faulted read, whose
decision is unsuccessful with both fields absent. -/
theorem C6_witness :
    (evaluate_auction propRobe (Except.error "x")).user_id = none ∧
    (evaluate_auction propRobe (Except.error "x")).bid_amount = none :=
  (C6_success_field_coupling propRobe (Except.error "x")).2 rfl

/-- C7: the record operation returns true and appends exactly the built
event on success, and on a persistence fault returns false without
throwing, leaving the stored sequence unchanged. -/
theorem C7_record_semantics (events : List AuctionEvent) (aid iid : String)
    (proposal : AuctionProposal) (decision : BidDecision) (et : String) :
    (store_auction_event events aid iid proposal decision et false).1 = true ∧
    (store_auction_event events aid iid proposal decision et false).2 =
      events ++ [mkStoredEvent aid iid proposal decision et] ∧
    (store_auction_event events aid iid proposal decision et true).1 = false ∧
    (store_auction_event events aid iid proposal decision et true).2 = events :=
  ⟨rfl, rfl, rfl, rfl⟩

/-- C8 counterexample: the no-match and success reasons of the code are the
French strings, not the English strings the claim states exactly. -/
theorem C8_counterexample :
    (evaluate_auction propRobe (.ok ([] : List UserPreference))).reason =
      some "Aucun utilisateur ne correspond aux critères" ∧
    (evaluate_auction propRobe (.ok ([] : List UserPreference))).reason ≠
      some "no matching user for criteria" ∧
    (evaluate_auction propRobe (.ok [aliceRobe])).reason =
      some "Enchère optimale pour l\x27utilisateur 1" ∧
    (evaluate_auction propRobe (.ok [aliceRobe])).reason ≠
      some "optimal bid for user 1" := by
  exact ⟨rfl, by decide, by decide, by decide⟩

/-- C8 (amended): when no preference matches, the decision is unsuccessful
with reason exactly the French no-match string; when one is selected, the
decision is successful with reason exactly the French optimal-bid string
followed by the selected user id. -/
theorem C8_reason_strings (proposal : AuctionProposal) (prefs : List UserPreference) :
    (pickBest (prefs.filter (prefMatches proposal)) = none →
      evaluate_auction proposal (.ok prefs) =
        { success := false, user_id := none, bid_amount := none,
          reason := some "Aucun utilisateur ne correspond aux critères" }) ∧
    (∀ b, pickBest (prefs.filter (prefMatches proposal)) = some b →
      (evaluate_auction proposal (.ok prefs)).success = true ∧
      (evaluate_auction proposal (.ok prefs)).reason =
        some ("Enchère optimale pour l\x27utilisateur " ++ toString b.user_id)) := by
  constructor
  · exact evaluate_none_eq proposal prefs
  · intro b h
    rw [evaluate_some_eq proposal prefs b h]
    exact ⟨rfl, rfl⟩

/-- C8 witness: the amended theorem applied to the matching fixture. -/
theorem C8_witness :
    pickBest (([aliceRobe] : List UserPreference).filter (prefMatches propRobe)) =
      some aliceRobe ∧
    ((evaluate_auction propRobe (.ok [aliceRobe])).success = true ∧
      (evaluate_auction propRobe (.ok [aliceRobe])).reason =
        some ("Enchère optimale pour l\x27utilisateur " ++ toString aliceRobe.user_id)) :=
  ⟨by decide, (C8_reason_strings propRobe [aliceRobe]).2 aliceRobe (by decide)⟩

/-- C9: the bid amount is the two-decimal rounding, applied exactly once at
the end, of the fully capped candidate; and for starting price 750.33 with
neither cap binding the candidate 787.8465 rounds to 787.85. -/
theorem C9_single_final_rounding :
    (∀ (proposal : AuctionProposal) (prefs : List UserPreference) (b : UserPreference),
      pickBest (prefs.filter (prefMatches proposal)) = some b →
      (evaluate_auction proposal (.ok prefs)).bid_amount =
        some (round2
          (min (min (proposal.starting_price * (1.05 : ℚ)) b.max_budget) proposal.max_price))) ∧
    (evaluate_auction propRounding (.ok [bobPantalon])).bid_amount = some (787.85 : ℚ) := by
  constructor
  · intro proposal prefs b h
    rw [evaluate_some_eq proposal prefs b h]
  · decide

/-- C9 witness: the rounding theorem applied to the 750.33 fixture. -/
theorem C9_witness :
    pickBest (([bobPantalon] : List UserPreference).filter (prefMatches propRounding)) =
      some bobPantalon ∧
    (evaluate_auction propRounding (.ok [bobPantalon])).bid_amount =
      some (round2 (min (min (propRounding.starting_price * (1.05 : ℚ)) bobPantalon.max_budget)
        propRounding.max_price)) :=
  ⟨by decide,
    C9_single_final_rounding.1 propRounding [bobPantalon] bobPantalon (by decide)⟩

/-- C10: every run of the evaluate endpoint makes exactly one record
attempt for the proposal: with no persistence fault exactly one event is
appended, of kind bid_accepted iff the decision succeeded and bid_rejected
iff it did not (so rejections and technical errors are persisted too);
with a fault the attempt fails and the store is unchanged. -/
theorem C10_always_persists (proposal : AuctionProposal)
    (prefTable : Except String (List UserPreference)) (events : List AuctionEvent) :
    ∃ e, (evaluate_endpoint proposal prefTable events false).2.2 = events ++ [e] ∧
      (e.event_type = "bid_accepted" ↔ (evaluate_auction proposal prefTable).success = true) ∧
      (e.event_type = "bid_rejected" ↔ (evaluate_auction proposal prefTable).success = false) ∧
      (evaluate_endpoint proposal prefTable events true).2.2 = events := by
  refine ⟨mkStoredEvent proposal.auction_id proposal.item_id proposal
      (evaluate_auction proposal prefTable)
      (if (evaluate_auction proposal prefTable).success then "bid_accepted" else "bid_rejected"),
    rfl, ?_, ?_, rfl⟩
  · by_cases h : (evaluate_auction proposal prefTable).success = true <;>
      simp [mkStoredEvent, h]
  · by_cases h : (evaluate_auction proposal prefTable).success = true <;>
      simp [mkStoredEvent, h]
